import Mathlib

/-!
Verification of the per-call voice-gateway specification against the source
of the ai-new-V8 repository. The definitions below are shallow embeddings of
the relevant source functions:

* namespace Official — packages/server/src/gemini-live-official.js
  (class GeminiLiveOfficial: connect, sendText, sendAudio,
  sendFunctionResponse, sendAudioStreamEnd, close).
* namespace Part3 — src/unnamed/part_003 (the duplicate GeminiLiveOfficial
  wrapper: connect with its onopen callback and sendInitialGreeting,
  sendRealtimeInput, sendClientContent).
* namespace Realtime — packages/ui/src/services/realtime.ts
  (RealtimeService reconnect constants and attemptReconnect).
* namespace Startup — start-ai-call-center.js (environment validation and
  exit codes).
* namespace Calls — packages/ui/src/services/api.ts (call-record store
  operations: emergencyStopAllCalls, getActiveCalls duration computation,
  getDashboardMetrics and getAnalyticsData aggregation formulas).
* allowedModels / allowedVoices / geminiModelCheck — the enumerated sets of
  the spec, the CHECK constraint printed by add-gemini-model-column.js, and
  the VOICE_OPTIONS list of the AgentManager component.

WebSocket transmission is modelled as a trace of protocol messages (GMsg):
a send that the source performs appends to the trace, a send that the
source refuses leaves the trace unchanged. Exceptions that the source
catches are not modelled as exceptional control flow; operations return the
same Bool the source returns.
-/

namespace AiCallCenter

/-- The speechConfig block of the session configuration, flattened from the
nested voiceConfig.prebuiltVoiceConfig.voiceName object of the source. -/
structure SpeechConfig where
  voiceName : String
deriving DecidableEq, Repr

/-- The configuration object passed to ai.live.connect: response modality,
speech configuration and system instruction. -/
structure ConnectConfig where
  responseModality : String
  speechConfig : Option SpeechConfig
  systemInstruction : Option String
deriving DecidableEq, Repr

/-- A protocol message sent from the client to the model socket. The setup
message carries the model name and the full configuration; the others mirror
the send methods of the source wrappers. -/
inductive GMsg where
  | setup (model : String) (cfg : ConnectConfig)
  | clientContent (text : String) (turnComplete : Bool)
  | realtimeAudio (data : String) (mimeType : String)
  | audioStreamEnd
  | functionResponse (name : String) (turnComplete : Bool)
deriving DecidableEq, Repr

/-- True exactly for the client-content messages (text or function turns):
the messages that carry conversational content to the model. -/
def GMsg.isContent : GMsg → Bool
  | .clientContent _ _ => true
  | .functionResponse _ _ => true
  | _ => false

/-! ## packages/server/src/gemini-live-official.js -/

namespace Official

/-- Constructor options of GeminiLiveOfficial (packages/server variant). -/
structure Options where
  apiKey : String
  model : Option String
  speechConfig : Option SpeechConfig
  systemInstruction : Option String
deriving DecidableEq, Repr

/-- Default model used when options.model is absent (connect, line 33). -/
def defaultModel : String := "gemini-live-2.5-flash-preview"

/-- Default speechConfig used when options.speechConfig is absent
(connect, lines 20-26): voiceName "default". -/
def defaultVoice : SpeechConfig := { voiceName := "default" }

/-- Default system instruction (connect, line 27). -/
def defaultSystemInstruction : String :=
  "You are a helpful AI assistant on a phone call. Be concise and conversational."

/-- The config object built by connect (lines 18-28). -/
def buildConfig (opts : Options) : ConnectConfig :=
  { responseModality := "AUDIO"
    speechConfig := some (opts.speechConfig.getD defaultVoice)
    systemInstruction := some (opts.systemInstruction.getD defaultSystemInstruction) }

/-- The model name passed to ai.live.connect (line 33). -/
def connectedModel (opts : Options) : String := opts.model.getD defaultModel

/-- Client state: whether this.geminiSession is non-null, and the trace of
protocol messages transmitted on the socket so far. -/
structure State where
  geminiSession : Bool
  sent : List GMsg
deriving DecidableEq, Repr

/-- State after the constructor: this.geminiSession = null, nothing sent. -/
def mkState : State := { geminiSession := false, sent := [] }

/-- connect: ai.live.connect transmits the model name and full configuration
as the setup message when the socket opens; the onopen callback only invokes
the onReady handler and sends nothing. Afterwards this.geminiSession holds
the session. -/
def connect (opts : Options) : State :=
  { geminiSession := true
    sent := [GMsg.setup (connectedModel opts) (buildConfig opts)] }

/-- sendText (lines 65-81): refuses with false when geminiSession is null,
otherwise sendClientContent with one user text turn. -/
def sendText (s : State) (text : String) : Bool × State :=
  if s.geminiSession then
    (true, { s with sent := s.sent ++ [GMsg.clientContent text false] })
  else (false, s)

/-- sendAudio (lines 84-102): refuses with false when geminiSession is null,
otherwise sendRealtimeInput with a base64 PCM chunk at 16 kHz. -/
def sendAudio (s : State) (base64AudioChunk : String) : Bool × State :=
  if s.geminiSession then
    (true, { s with sent := s.sent ++ [GMsg.realtimeAudio base64AudioChunk "audio/pcm;rate=16000"] })
  else (false, s)

/-- sendFunctionResponse (lines 105-125): refuses with false when
geminiSession is null, otherwise a function turn with turnComplete true. -/
def sendFunctionResponse (s : State) (functionName : String) : Bool × State :=
  if s.geminiSession then
    (true, { s with sent := s.sent ++ [GMsg.functionResponse functionName true] })
  else (false, s)

/-- sendAudioStreamEnd (lines 128-139): refuses with false when
geminiSession is null, otherwise sendRealtimeInput with audioStreamEnd. -/
def sendAudioStreamEnd (s : State) : Bool × State :=
  if s.geminiSession then
    (true, { s with sent := s.sent ++ [GMsg.audioStreamEnd] })
  else (false, s)

/-- close (lines 142-153): when a session exists, this.geminiSession.close()
runs inside try/catch and the finally block sets this.geminiSession = null,
so the handle is null afterwards whether or not the underlying close throws
(the closeThrows argument records that outcome and does not affect the
result). -/
def close (s : State) (_closeThrows : Bool) : State :=
  if s.geminiSession then { s with geminiSession := false } else s

end Official

/-! ## src/unnamed/part_003 (duplicate GeminiLiveOfficial wrapper) -/

namespace Part3

/-- Constructor options of the part_003 wrapper. -/
structure Options where
  apiKey : String
  model : String
  speechConfig : Option SpeechConfig
  systemInstruction : Option String
deriving DecidableEq, Repr

/-- The config object built by connect (lines 26-40): no defaults are
substituted for speechConfig or systemInstruction. -/
def buildConfig (opts : Options) : ConnectConfig :=
  { responseModality := "AUDIO"
    speechConfig := opts.speechConfig
    systemInstruction := opts.systemInstruction }

/-- Client state of the part_003 wrapper: this.session, this.isConnected and
the trace of transmitted protocol messages. -/
structure State where
  session : Bool
  isConnected : Bool
  sent : List GMsg
deriving DecidableEq, Repr

/-- State after the constructor: session null, isConnected false. -/
def mkState : State := { session := false, isConnected := false, sent := [] }

/-- The greeting string sendInitialGreeting transmits (line 195). -/
def greetingText : String := "Hello, thank you for calling. How can I help you today?"

/-- connect (lines 17-77): the configuration is transmitted as the setup
message when the socket opens; the onopen callback (lines 45-53) sets
isConnected = true and calls sendInitialGreeting (lines 193-206), which
transmits the greeting as client content before any caller audio. -/
def connect (opts : Options) : State :=
  { session := true
    isConnected := true
    sent := [GMsg.setup opts.model (buildConfig opts),
             GMsg.clientContent greetingText false] }

/-- sendRealtimeInput (lines 122-135): refuses with false unless the session
exists and isConnected holds; otherwise transmits the realtime-input
message. -/
def sendRealtimeInput (s : State) (input : GMsg) : Bool × State :=
  if s.session && s.isConnected then
    (true, { s with sent := s.sent ++ [input] })
  else (false, s)

/-- sendClientContent (lines 137-150): refuses with false unless the session
exists and isConnected holds; otherwise transmits the client-content
message. -/
def sendClientContent (s : State) (text : String) (turnComplete : Bool) : Bool × State :=
  if s.session && s.isConnected then
    (true, { s with sent := s.sent ++ [GMsg.clientContent text turnComplete] })
  else (false, s)

end Part3

/-! ## Enumerated allowed sets -/

/-- The enumerated allowed model set of the spec, identical to the list the
migration script add-gemini-model-column.js enumerates. -/
def allowedModels : List String :=
  ["gemini-live-2.5-flash-preview", "gemini-2.0-flash-live-001",
   "gemini-2.5-flash-preview-native-audio-dialog"]

/-- The enumerated allowed voice set of the spec. -/
def allowedVoices : List String :=
  ["Puck", "Charon", "Kore", "Fenrir", "Aoede", "Leda", "Orus", "Zephyr"]

/-- The CHECK constraint the migration script prints for the
profiles.gemini_model column (add-gemini-model-column.js, lines 55-59):
gemini_model IN (the three model names). -/
def geminiModelCheck (m : String) : Bool :=
  m == "gemini-live-2.5-flash-preview" || m == "gemini-2.0-flash-live-001" ||
  m == "gemini-2.5-flash-preview-native-audio-dialog"

/-- The value fields of VOICE_OPTIONS in the AgentManager component
(src/unnamed/part_004, lines 18-27). -/
def voiceOptionValues : List String :=
  ["Puck", "Charon", "Kore", "Fenrir", "Aoede", "Leda", "Orus", "Zephyr"]

/-! ## packages/ui/src/services/realtime.ts -/

namespace Realtime

/-- RealtimeService.maxReconnectAttempts (line 37). -/
def maxReconnectAttempts : Nat := 5

/-- RealtimeService.reconnectDelay in milliseconds (line 38). -/
def reconnectDelayMs : Nat := 1000

/-- Outcome of attemptReconnect: schedule a retry after a delay with the
updated attempt counter, or give up and fall back to polling. -/
inductive ReconnectAction where
  | retry (delayMs : Nat) (attemptsAfter : Nat)
  | fallbackToPolling
deriving DecidableEq, Repr

/-- attemptReconnect (lines 135-150): when the counter has reached
maxReconnectAttempts, fall back to polling; otherwise increment the counter
and schedule a retry after reconnectDelay * 2 ^ (attempts - 1) ms. -/
def attemptReconnect (reconnectAttempts : Nat) : ReconnectAction :=
  if maxReconnectAttempts ≤ reconnectAttempts then .fallbackToPolling
  else
    let a := reconnectAttempts + 1
    .retry (reconnectDelayMs * 2 ^ (a - 1)) a

end Realtime

/-! ## start-ai-call-center.js -/

namespace Startup

/-- True when the first character list occurs contiguously inside the
second. -/
def charsHaveSub (sub : List Char) : List Char → Bool
  | [] => sub.isEmpty
  | c :: rest => sub.isPrefixOf (c :: rest) || charsHaveSub sub rest

/-- True when sub occurs as a substring of s, mirroring the JS
String.prototype.includes call on a fixed needle. -/
def containsSub (sub s : String) : Bool := charsHaveSub sub.toList s.toList

/-- The required environment variables (line 41). -/
def requiredVars : List String :=
  ["SUPABASE_URL", "SUPABASE_ANON_KEY", "GEMINI_API_KEY", "TWILIO_ACCOUNT_SID"]

/-- The per-variable predicate of line 42: the variable is absent or falsy
(undefined or empty string) or still holds a placeholder containing
"your_". -/
def isMissingVar (env : String → Option String) (v : String) : Bool :=
  match env v with
  | none => true
  | some s => s == "" || containsSub "your_" s

/-- missingVars (line 42): the required variables that are missing or
placeholders. -/
def missingVars (env : String → Option String) : List String :=
  requiredVars.filter (isMissingVar env)

/-- Outcome of a run of the startup script: whether the call services were
started, and the process exit code. -/
structure RunResult where
  served : Bool
  exitCode : Nat
deriving DecidableEq, Repr

/-- The startup control flow: missing .env file exits 1 before anything else
(lines 19-35); a non-empty missingVars list exits 1 before any service is
started (lines 44-50); otherwise main() runs, exiting 0 on a clean run and 1
when deployment fails (line 403). -/
def startupRun (envFileExists : Bool) (env : String → Option String)
    (cleanRun : Bool) : RunResult :=
  if !envFileExists then { served := false, exitCode := 1 }
  else if !(missingVars env).isEmpty then { served := false, exitCode := 1 }
  else if cleanRun then { served := true, exitCode := 0 }
  else { served := true, exitCode := 1 }

end Startup

/-! ## packages/ui/src/services/api.ts (call-record store) -/

namespace Calls

/-- A call_logs row, restricted to the fields the cited operations read or
write. Instants are epoch milliseconds. -/
structure CallRecord where
  id : Nat
  profile_id : String
  status : String
  started_at : Int
  ended_at : Option Int
  duration_seconds : Int
  outcome : Option String
deriving DecidableEq, Repr

/-- The row update emergencyStopAllCalls applies to a matched row: set
status = failed, ended_at = now, outcome = Emergency stop, all other fields
kept. -/
def stopRow (nowMs : Int) (r : CallRecord) : CallRecord :=
  { r with status := "failed", ended_at := some nowMs,
           outcome := some "Emergency stop" }

/-- emergencyStopAllCalls (api.ts, lines 409-426): update call_logs set
status = failed, ended_at = now, outcome = Emergency stop where
profile_id = userId and status = in_progress. Every other row, and every
other field, is untouched. -/
def emergencyStopAllCalls (userId : String) (nowMs : Int)
    (db : List CallRecord) : List CallRecord :=
  db.map fun r =>
    if r.profile_id = userId ∧ r.status = "in_progress" then stopRow nowMs r
    else r

/-- The per-row view getActiveCalls builds (api.ts, line 284): the reported
duration_seconds is Math.floor((now - started_at) / 1000). -/
def activeCallView (nowMs : Int) (r : CallRecord) : CallRecord :=
  { r with duration_seconds := Int.fdiv (nowMs - r.started_at) 1000 }

/-- getActiveCalls (api.ts, lines 265-290): the rows of the user with status
in_progress, each reported with the live duration of activeCallView (the
order-by clause is not modelled). -/
def getActiveCalls (userId : String) (nowMs : Int)
    (db : List CallRecord) : List CallRecord :=
  (db.filter fun r => r.profile_id = userId ∧ r.status = "in_progress").map
    (activeCallView nowMs)

/-- The completed-call count used by the metric formulas. -/
def completedCount (calls : List CallRecord) : Nat :=
  (calls.filter fun c => c.status = "completed").length

/-- Total duration_seconds over the fetched rows (api.ts, lines 161 and
480). -/
def totalDuration (calls : List CallRecord) : Int :=
  (calls.map fun c => c.duration_seconds).sum

/-- successRate as computed by getDashboardMetrics (line 159) and
getAnalyticsData (line 478): (successful / total) * 100 when total > 0,
otherwise 0. -/
def successRateCalc (calls : List CallRecord) : ℚ :=
  if 0 < calls.length then
    ((completedCount calls : ℚ) / (calls.length : ℚ)) * 100
  else 0

/-- avgDuration as computed by getDashboardMetrics (line 162) and
getAnalyticsData (line 481): totalDuration / total when total > 0,
otherwise 0. -/
def avgDurationCalc (calls : List CallRecord) : ℚ :=
  if 0 < calls.length then (totalDuration calls : ℚ) / (calls.length : ℚ)
  else 0

end Calls

/-! ## Concrete sample data used by witnesses and counterexamples -/

/-- Sample options for the part_003 wrapper. -/
def p3SampleOpts : Part3.Options :=
  { apiKey := "key", model := "gemini-2.0-flash-live-001",
    speechConfig := some { voiceName := "Puck" },
    systemInstruction := some "Wait for the caller to speak first." }

/-- Sample options for the packages/server wrapper. -/
def officialSampleOpts : Official.Options :=
  { apiKey := "key", model := some "gemini-2.0-flash-live-001",
    speechConfig := some { voiceName := "Puck" }, systemInstruction := none }

/-- Options whose model name lies outside the enumerated allowed set. -/
def officialBadOpts : Official.Options :=
  { apiKey := "key", model := some "totally-invalid-model",
    speechConfig := none, systemInstruction := none }

/-- An in-progress call row of user u started at epoch 0. -/
def rInProgress : Calls.CallRecord :=
  { id := 1, profile_id := "u", status := "in_progress", started_at := 0,
    ended_at := none, duration_seconds := 0, outcome := none }

/-- A completed call row of another user. -/
def rCompleted : Calls.CallRecord :=
  { id := 2, profile_id := "v", status := "completed", started_at := 0,
    ended_at := some 7000, duration_seconds := 7, outcome := some "done" }

/-- An environment in which SUPABASE_URL is absent. -/
def envMissing : String → Option String := fun v =>
  if v = "SUPABASE_URL" then none else some "value"

/-- An environment in which every variable has a real value. -/
def envComplete : String → Option String := fun _ => some "value"

/-! ## Claim theorems -/

/-- C1: the claim states that after the model-side session is opened, no
text or audio content is sent to the model until caller audio arrives. The
part_003 wrapper violates this: its onopen path transmits the greeting as
client content immediately on open, so the trace right after connect already
carries one content message, while the packages/server wrapper (the
behavior the repository documentation and test script demand) transmits
none. -/
theorem c1_part3_greets_on_open :
    (Part3.connect p3SampleOpts).sent =
      [GMsg.setup "gemini-2.0-flash-live-001" (Part3.buildConfig p3SampleOpts),
       GMsg.clientContent Part3.greetingText false]
    ∧ ((Part3.connect p3SampleOpts).sent.filter GMsg.isContent).length = 1
    ∧ ((Official.connect officialSampleOpts).sent.filter GMsg.isContent).length = 0 :=
  ⟨rfl, rfl, rfl⟩

/-- C2: the full configuration is the first (and only) protocol message
transmitted on open, the constructor state has an empty trace, and a
send-audio call made while the session is not yet established (the session
handle still null, or the part_003 connected flag still false) forwards
nothing and returns false. -/
theorem c2_config_first_and_no_audio_before_ack :
    (∀ opts : Official.Options,
        (Official.connect opts).sent =
          [GMsg.setup (Official.connectedModel opts) (Official.buildConfig opts)])
    ∧ Official.mkState.sent = []
    ∧ (∀ (s : Official.State) (chunk : String), s.geminiSession = false →
        Official.sendAudio s chunk = (false, s))
    ∧ (∀ (s : Part3.State) (input : GMsg), s.isConnected = false →
        Part3.sendRealtimeInput s input = (false, s)) := by
  refine ⟨fun _ => rfl, rfl, ?_, ?_⟩
  · intro s chunk h
    simp [Official.sendAudio, h]
  · intro s input h
    simp [Part3.sendRealtimeInput, h]

/-- C2 witness: at the constructor state the session is not established and
a concrete send-audio call forwards nothing and reports failure. -/
theorem c2_config_first_witness :
    Official.mkState.geminiSession = false
    ∧ Official.sendAudio Official.mkState "QUJD" = (false, Official.mkState) :=
  ⟨rfl, c2_config_first_and_no_audio_before_ack.2.2.1 Official.mkState "QUJD" rfl⟩

/-- C3 counterexample: the configuration is not validated against the
enumerated sets before the session opens. Connect succeeds for a model name
outside the allowed model set, and with no speechConfig supplied the opened
configuration carries voice name default, which is outside the allowed
voice set. -/
theorem c3_counterexample_unvalidated_connect :
    (Official.connect officialBadOpts).geminiSession = true
    ∧ Official.connectedModel officialBadOpts = "totally-invalid-model"
    ∧ "totally-invalid-model" ∉ allowedModels
    ∧ (Official.buildConfig officialBadOpts).speechConfig =
        some { voiceName := "default" }
    ∧ "default" ∉ allowedVoices := by
  refine ⟨rfl, rfl, by decide, rfl, by decide⟩

/-- C3 amended: connect performs no validation (it opens a session for every
options value, transmitting whatever model name and speech configuration the
options carry, with defaults substituted); the only enforcement of the
enumerated model set is the CHECK constraint printed by the migration script
for the profiles.gemini_model column, which accepts exactly the three
allowed model names, and the UI voice dropdown offers exactly the eight
allowed voices. -/
theorem c3_amended_no_prevalidation :
    (∀ opts : Official.Options,
        (Official.connect opts).geminiSession = true
        ∧ (Official.connect opts).sent =
            [GMsg.setup (Official.connectedModel opts) (Official.buildConfig opts)])
    ∧ (∀ m : String, geminiModelCheck m = true ↔ m ∈ allowedModels)
    ∧ voiceOptionValues = allowedVoices := by
  refine ⟨fun _ => ⟨rfl, rfl⟩, ?_, rfl⟩
  intro m
  simp [geminiModelCheck, allowedModels]
  tauto

/-- C3 amended witness: the CHECK constraint accepts a concrete allowed
model name. -/
theorem c3_amended_witness :
    geminiModelCheck "gemini-2.0-flash-live-001" = true :=
  (c3_amended_no_prevalidation.2.1 "gemini-2.0-flash-live-001").mpr (by decide)

/-- C6 counterexample: the first reconnect delay is 1000 ms, not 250 ms; a
fourth attempt is scheduled (the claim allows at most three); and its delay
of 8000 ms exceeds the claimed 4 s cap. -/
theorem c6_counterexample_backoff :
    Realtime.attemptReconnect 0 = Realtime.ReconnectAction.retry 1000 1
    ∧ (1000 : Nat) ≠ 250
    ∧ Realtime.attemptReconnect 3 = Realtime.ReconnectAction.retry 8000 4
    ∧ (4000 : Nat) < 8000 :=
  ⟨rfl, by decide, rfl, by decide⟩

/-- C6 amended: for every unsolicited close, reconnection is attempted at
most five times with exponential backoff whose first delay is 1000 ms and
whose delays double without any cap (the delay before attempt k+1 is
1000 * 2 ^ k ms); once five attempts have been made the service falls back
to polling. -/
theorem c6_amended_backoff (k : Nat) :
    (k < Realtime.maxReconnectAttempts →
      Realtime.attemptReconnect k =
        Realtime.ReconnectAction.retry (Realtime.reconnectDelayMs * 2 ^ k) (k + 1))
    ∧ (Realtime.maxReconnectAttempts ≤ k →
      Realtime.attemptReconnect k = Realtime.ReconnectAction.fallbackToPolling) := by
  constructor
  · intro h
    simp [Realtime.attemptReconnect, Nat.not_le.mpr h]
  · intro h
    simp [Realtime.attemptReconnect, h]

/-- C6 amended witness: the first attempt is scheduled after 1000 ms, and
after five attempts the service falls back to polling. -/
theorem c6_amended_backoff_witness :
    Realtime.attemptReconnect 0 = Realtime.ReconnectAction.retry 1000 1
    ∧ Realtime.attemptReconnect 5 = Realtime.ReconnectAction.fallbackToPolling := by
  refine ⟨?_, (c6_amended_backoff 5).2 (by decide)⟩
  have h := (c6_amended_backoff 0).1 (by decide)
  simpa using h

/-- C4: emergencyStopAllCalls transitions exactly the in-progress rows of
the targeted user to status failed with the emergency-stop outcome tag and a
set end instant, preserving every other field of those rows, and leaves
every row that is not an in-progress row of that user entirely unchanged. -/
theorem c4_emergency_stop_frame (user : String) (nowMs : Int)
    (db : List Calls.CallRecord) (i : Nat) (h : i < db.length) :
    ((db.get ⟨i, h⟩).profile_id = user ∧ (db.get ⟨i, h⟩).status = "in_progress" →
      (Calls.emergencyStopAllCalls user nowMs db).get? i =
        some (Calls.stopRow nowMs (db.get ⟨i, h⟩))
      ∧ (Calls.stopRow nowMs (db.get ⟨i, h⟩)).status = "failed"
      ∧ (Calls.stopRow nowMs (db.get ⟨i, h⟩)).ended_at = some nowMs
      ∧ (Calls.stopRow nowMs (db.get ⟨i, h⟩)).outcome = some "Emergency stop"
      ∧ (Calls.stopRow nowMs (db.get ⟨i, h⟩)).id = (db.get ⟨i, h⟩).id
      ∧ (Calls.stopRow nowMs (db.get ⟨i, h⟩)).profile_id = (db.get ⟨i, h⟩).profile_id
      ∧ (Calls.stopRow nowMs (db.get ⟨i, h⟩)).started_at = (db.get ⟨i, h⟩).started_at
      ∧ (Calls.stopRow nowMs (db.get ⟨i, h⟩)).duration_seconds
          = (db.get ⟨i, h⟩).duration_seconds)
    ∧ (¬((db.get ⟨i, h⟩).profile_id = user ∧ (db.get ⟨i, h⟩).status = "in_progress") →
      (Calls.emergencyStopAllCalls user nowMs db).get? i = some (db.get ⟨i, h⟩)) := by
  have hmap : (Calls.emergencyStopAllCalls user nowMs db).get? i
      = (db.get? i).map (fun r =>
          if r.profile_id = user ∧ r.status = "in_progress" then
            Calls.stopRow nowMs r
          else r) := by
    simp [Calls.emergencyStopAllCalls, List.get?_map]
  have hg : db.get? i = some (db.get ⟨i, h⟩) := List.get?_eq_get h
  rw [hmap, hg]
  constructor
  · intro hc
    exact ⟨by simp only [Option.map_some']; rw [if_pos hc],
           rfl, rfl, rfl, rfl, rfl, rfl, rfl⟩
  · intro hc
    simp only [Option.map_some']
    rw [if_neg hc]

/-- C4 witness: on a concrete two-row store, the in-progress row of user u
is failed with end instant and emergency-stop outcome, and the other row is
returned unchanged. -/
theorem c4_emergency_stop_frame_witness :
    (Calls.emergencyStopAllCalls "u" 5 [rInProgress, rCompleted]).get? 0 =
      some (Calls.stopRow 5 rInProgress)
    ∧ (Calls.stopRow 5 rInProgress).status = "failed"
    ∧ (Calls.emergencyStopAllCalls "u" 5 [rInProgress, rCompleted]).get? 1 =
      some rCompleted := by
  have h0 := (c4_emergency_stop_frame "u" 5 [rInProgress, rCompleted] 0
    (by decide)).1 (by decide)
  have h1 := (c4_emergency_stop_frame "u" 5 [rInProgress, rCompleted] 1
    (by decide)).2 (by decide)
  exact ⟨h0.1, h0.2.1, h1⟩

/-- C5 counterexample: the claim states duration is not computed or reported
before termination and equals round(end minus start) at termination. But
getActiveCalls reports duration_seconds = 5 for a still-in-progress call at
now = 5000 ms, and emergencyStopAllCalls terminates that call at
now = 10000 ms leaving its stored duration_seconds at 0, which differs from
the elapsed 10 seconds. -/
theorem c5_counterexample_live_duration :
    Calls.getActiveCalls "u" 5000 [rInProgress] =
      [{ rInProgress with duration_seconds := 5 }]
    ∧ ((Calls.emergencyStopAllCalls "u" 10000 [rInProgress]).map
        (fun r => r.duration_seconds)) = [0]
    ∧ (0 : Int) ≠ Int.fdiv (10000 - 0) 1000 := by
  refine ⟨by decide, by decide, by decide⟩

/-- C5 amended: getActiveCalls computes and reports, for each in-progress
row, a live duration equal to the floor of (now minus started_at) divided
by 1000, which is nonnegative whenever now is at or after the start;
emergencyStopAllCalls leaves duration_seconds of every row unchanged while
setting the end instant of matched rows to now, so the stored ended_at
dominates started_at whenever the stop instant does. -/
theorem c5_amended_duration_semantics (user : String) (nowMs : Int)
    (r : Calls.CallRecord) (db : List Calls.CallRecord) (i : Nat)
    (hle : r.started_at ≤ nowMs) :
    (Calls.activeCallView nowMs r).duration_seconds
        = Int.fdiv (nowMs - r.started_at) 1000
    ∧ 0 ≤ (Calls.activeCallView nowMs r).duration_seconds
    ∧ ((Calls.emergencyStopAllCalls user nowMs db).get? i).map
        (fun s => s.duration_seconds)
      = (db.get? i).map (fun s => s.duration_seconds)
    ∧ ((r.profile_id = user ∧ r.status = "in_progress") →
        Calls.emergencyStopAllCalls user nowMs [r] = [Calls.stopRow nowMs r]
        ∧ (Calls.stopRow nowMs r).ended_at = some nowMs
        ∧ (∀ e : Int, (Calls.stopRow nowMs r).ended_at = some e →
            (Calls.stopRow nowMs r).started_at ≤ e)) := by
  refine ⟨rfl, ?_, ?_, ?_⟩
  · exact Int.fdiv_nonneg (by omega) (by norm_num)
  · have hdur : ∀ s : Calls.CallRecord,
        ((if s.profile_id = user ∧ s.status = "in_progress" then
            Calls.stopRow nowMs s
          else s) : Calls.CallRecord).duration_seconds = s.duration_seconds := by
      intro s
      split <;> rfl
    have hm : (Calls.emergencyStopAllCalls user nowMs db).get? i
        = (db.get? i).map (fun s =>
            if s.profile_id = user ∧ s.status = "in_progress" then
              Calls.stopRow nowMs s
            else s) := by
      simp [Calls.emergencyStopAllCalls, List.get?_map]
    rw [hm, Option.map_map]
    congr 1
    funext s
    exact hdur s
  · intro hc
    refine ⟨by simp [Calls.emergencyStopAllCalls, if_pos hc], rfl, ?_⟩
    intro e he
    have : nowMs = e := by simpa [Calls.stopRow] using he
    subst this
    simpa [Calls.stopRow] using hle

/-- C5 amended witness: at now = 5000 ms the live view of the concrete
in-progress row reports duration 5 seconds, a nonnegative value. -/
theorem c5_amended_witness :
    (Calls.activeCallView 5000 rInProgress).duration_seconds = 5
    ∧ 0 ≤ (Calls.activeCallView 5000 rInProgress).duration_seconds := by
  have h := c5_amended_duration_semantics "u" 5000 rInProgress [rInProgress] 0
    (by decide)
  exact ⟨by rw [h.1]; decide, h.2.1⟩

/-- C7: when any required environment variable is missing or holds a
placeholder, the startup script exits with a non-zero code before any call
service is started (and a missing .env file does the same); with a complete
environment and a clean run the exit code is 0. -/
theorem c7_startup_env_validation (env : String → Option String)
    (cleanRun : Bool) :
    ((∃ v ∈ Startup.requiredVars, Startup.isMissingVar env v = true) →
      (Startup.startupRun true env cleanRun).exitCode ≠ 0
      ∧ (Startup.startupRun true env cleanRun).served = false)
    ∧ Startup.startupRun false env cleanRun = { served := false, exitCode := 1 }
    ∧ ((∀ v ∈ Startup.requiredVars, Startup.isMissingVar env v = false) →
        Startup.startupRun true env true = { served := true, exitCode := 0 }) := by
  refine ⟨?_, rfl, ?_⟩
  · rintro ⟨v, hv, hm⟩
    have hmem : v ∈ Startup.missingVars env := List.mem_filter.mpr ⟨hv, hm⟩
    cases hmv : Startup.missingVars env with
    | nil => rw [hmv] at hmem; simp at hmem
    | cons a l => simp [Startup.startupRun, hmv]
  · intro hall
    have hnil : Startup.missingVars env = [] := by
      apply List.filter_eq_nil_iff.mpr
      intro a ha
      simp [hall a ha]
    simp [Startup.startupRun, hnil]

/-- C7 witness: with SUPABASE_URL absent the script exits non-zero without
serving; with every variable set to a real value and a clean run it exits
with code 0. -/
theorem c7_startup_env_validation_witness :
    ((Startup.startupRun true envMissing true).exitCode ≠ 0
      ∧ (Startup.startupRun true envMissing true).served = false)
    ∧ Startup.startupRun true envComplete true = { served := true, exitCode := 0 } := by
  refine ⟨(c7_startup_env_validation envMissing true).1 ?_,
          (c7_startup_env_validation envComplete true).2.2 ?_⟩
  · exact ⟨"SUPABASE_URL", by decide, by decide⟩
  · decide

/-- C8: every send operation of either wrapper invoked while no session is
established returns false and transmits nothing (the trace and the state are
unchanged), and close always leaves the session handle null afterwards,
whether or not the underlying socket close throws. -/
theorem c8_sends_and_close_safe :
    (∀ (s : Official.State) (text : String), s.geminiSession = false →
      Official.sendText s text = (false, s))
    ∧ (∀ (s : Official.State) (chunk : String), s.geminiSession = false →
      Official.sendAudio s chunk = (false, s))
    ∧ (∀ (s : Official.State) (fname : String), s.geminiSession = false →
      Official.sendFunctionResponse s fname = (false, s))
    ∧ (∀ s : Official.State, s.geminiSession = false →
      Official.sendAudioStreamEnd s = (false, s))
    ∧ (∀ (s : Official.State) (closeThrows : Bool),
      (Official.close s closeThrows).geminiSession = false)
    ∧ (∀ (s : Part3.State) (input : GMsg),
      s.session = false ∨ s.isConnected = false →
      Part3.sendRealtimeInput s input = (false, s))
    ∧ (∀ (s : Part3.State) (text : String) (tc : Bool),
      s.session = false ∨ s.isConnected = false →
      Part3.sendClientContent s text tc = (false, s)) := by
  refine ⟨?_, ?_, ?_, ?_, ?_, ?_, ?_⟩
  · intro s text h; simp [Official.sendText, h]
  · intro s chunk h; simp [Official.sendAudio, h]
  · intro s fname h; simp [Official.sendFunctionResponse, h]
  · intro s h; simp [Official.sendAudioStreamEnd, h]
  · intro s closeThrows
    by_cases h : s.geminiSession <;> simp [Official.close, h]
  · intro s input h
    rcases h with h | h <;> simp [Part3.sendRealtimeInput, h]
  · intro s text tc h
    rcases h with h | h <;> simp [Part3.sendClientContent, h]

/-- C8 witness: at the constructor state every send operation refuses with
false and leaves the state unchanged, and close on the constructor state
leaves the handle null even when the underlying close throws. -/
theorem c8_sends_and_close_safe_witness :
    Official.sendText Official.mkState "hi" = (false, Official.mkState)
    ∧ Official.sendFunctionResponse Official.mkState "f" = (false, Official.mkState)
    ∧ Official.sendAudioStreamEnd Official.mkState = (false, Official.mkState)
    ∧ (Official.close Official.mkState true).geminiSession = false
    ∧ Part3.sendRealtimeInput Part3.mkState GMsg.audioStreamEnd = (false, Part3.mkState) := by
  refine ⟨c8_sends_and_close_safe.1 Official.mkState "hi" rfl,
          c8_sends_and_close_safe.2.2.1 Official.mkState "f" rfl,
          c8_sends_and_close_safe.2.2.2.1 Official.mkState rfl,
          c8_sends_and_close_safe.2.2.2.2.1 Official.mkState true,
          c8_sends_and_close_safe.2.2.2.2.2.1 Part3.mkState GMsg.audioStreamEnd
            (Or.inl rfl)⟩

/-- C9: the aggregation formulas are total: on the empty record set both
metrics are 0; on a non-empty set successRate is 100 times the completed
fraction and avgDuration is the total duration divided by the record count
(the guard makes division by zero unreachable); and successRate always lies
between 0 and 100. -/
theorem c9_metrics_total_and_bounded (calls : List Calls.CallRecord) :
    (calls = [] →
      Calls.successRateCalc calls = 0 ∧ Calls.avgDurationCalc calls = 0)
    ∧ (calls ≠ [] →
        Calls.successRateCalc calls
          = 100 * ((Calls.completedCount calls : ℚ) / (calls.length : ℚ))
        ∧ Calls.avgDurationCalc calls
          = (Calls.totalDuration calls : ℚ) / (calls.length : ℚ))
    ∧ 0 ≤ Calls.successRateCalc calls ∧ Calls.successRateCalc calls ≤ 100 := by
  have hcc : (Calls.completedCount calls : ℚ) ≤ (calls.length : ℚ) := by
    have := List.length_filter_le (fun c : Calls.CallRecord =>
      decide (c.status = "completed")) calls
    exact_mod_cast this
  have hcc0 : (0 : ℚ) ≤ (Calls.completedCount calls : ℚ) := by positivity
  refine ⟨?_, ?_, ?_, ?_⟩
  · intro h
    subst h
    simp [Calls.successRateCalc, Calls.avgDurationCalc]
  · intro h
    have hlen : 0 < calls.length := List.length_pos.mpr h
    constructor
    · rw [Calls.successRateCalc, if_pos hlen]; ring
    · rw [Calls.avgDurationCalc, if_pos hlen]
  · rw [Calls.successRateCalc]
    split
    · positivity
    · norm_num
  · rw [Calls.successRateCalc]
    split
    · rename_i hlen
      have hq : (0 : ℚ) < (calls.length : ℚ) := by exact_mod_cast hlen
      have hdiv : (Calls.completedCount calls : ℚ) / (calls.length : ℚ) ≤ 1 :=
        (div_le_one hq).mpr hcc
      calc (Calls.completedCount calls : ℚ) / (calls.length : ℚ) * 100
          ≤ 1 * 100 := by
            exact mul_le_mul_of_nonneg_right hdiv (by norm_num)
        _ = 100 := by norm_num
    · norm_num

/-- C9 witness: on the empty set both metrics are 0, and on a one-element
completed set the success rate is exactly 100. -/
theorem c9_metrics_witness :
    Calls.successRateCalc [] = 0 ∧ Calls.avgDurationCalc [] = 0
    ∧ Calls.successRateCalc [rCompleted] = 100 := by
  have h1 := (c9_metrics_total_and_bounded []).1 rfl
  have h2 := (c9_metrics_total_and_bounded [rCompleted]).2.1 (by simp)
  refine ⟨h1.1, h1.2, ?_⟩
  rw [h2.1]
  have hc : Calls.completedCount [rCompleted] = 1 := by decide
  rw [hc]
  norm_num

/-- C10: emergencyStopAllCalls is idempotent on the store: a second
application for the same user (at any later instant) changes nothing,
because the first leaves no row of that user in status in_progress. -/
theorem c10_emergency_stop_idempotent (user : String) (now1 now2 : Int)
    (db : List Calls.CallRecord) :
    Calls.emergencyStopAllCalls user now2 (Calls.emergencyStopAllCalls user now1 db)
      = Calls.emergencyStopAllCalls user now1 db := by
  induction db with
  | nil => rfl
  | cons r rest ih =>
    simp only [Calls.emergencyStopAllCalls, List.map_cons] at ih ⊢
    by_cases hc : r.profile_id = user ∧ r.status = "in_progress"
    · rw [if_pos hc, if_neg (fun h2 =>
        absurd (show ("failed" : String) = "in_progress" from h2.2) (by decide))]
      exact congrArg _ ih
    · rw [if_neg hc, if_neg hc]
      exact congrArg _ ih

end AiCallCenter
